import Mathlib

/-!
Verification of `core/error/error_codes.h`.

A shallow embedding of the `ErrorCode` enumeration and of
`error_code_to_string`, followed by the properties the specification states
about them.

`ErrorCode` is a scoped enumeration without an enum-base, so its underlying
type is `int` and every value of that type is a value of the enumeration.  The
header performs no arithmetic on it; the model keeps the integer as an `Int`,
and every statement below is quantified over all of `Int`, which covers each
value an `int` can hold.
-/

/-- A value of `enum class ErrorCode`: the integer it holds.  `ErrorCode.mk n`
is `static_cast<ErrorCode>(n)` and `val` is the cast back to `int`. -/
structure ErrorCode where
  val : Int
deriving DecidableEq, Repr

namespace ErrorCode

def OK : ErrorCode := ⟨0⟩

-- File and I/O errors
def FILE_NOT_FOUND : ErrorCode := ⟨1⟩
def FILE_CANT_OPEN : ErrorCode := ⟨2⟩
def FILE_CANT_READ : ErrorCode := ⟨3⟩
def FILE_CANT_WRITE : ErrorCode := ⟨4⟩
def FILE_CORRUPT : ErrorCode := ⟨5⟩
def FILE_EOF : ErrorCode := ⟨6⟩

-- Parsing errors
def PARSE_ERROR : ErrorCode := ⟨10⟩
def INVALID_FORMAT : ErrorCode := ⟨11⟩
def INVALID_DATA : ErrorCode := ⟨12⟩

-- Resource loading errors
def RESOURCE_NOT_FOUND : ErrorCode := ⟨20⟩
def RESOURCE_LOAD_FAILED : ErrorCode := ⟨21⟩
def RESOURCE_SAVE_FAILED : ErrorCode := ⟨22⟩
def RESOURCE_TIMEOUT : ErrorCode := ⟨23⟩
def RESOURCE_BUSY : ErrorCode := ⟨24⟩

-- Memory errors
def OUT_OF_MEMORY : ErrorCode := ⟨30⟩
def MEMORY_LEAK : ErrorCode := ⟨31⟩

-- Network errors
def NETWORK_TIMEOUT : ErrorCode := ⟨40⟩
def NETWORK_CONNECTION_FAILED : ErrorCode := ⟨41⟩
def NETWORK_REQUEST_FAILED : ErrorCode := ⟨42⟩

-- Validation errors
def INVALID_PARAMETER : ErrorCode := ⟨50⟩
def OUT_OF_RANGE : ErrorCode := ⟨51⟩
def NULL_POINTER : ErrorCode := ⟨52⟩

-- System errors
def UNAVAILABLE : ErrorCode := ⟨60⟩
def UNAUTHORIZED : ErrorCode := ⟨61⟩
def PERMISSION_DENIED : ErrorCode := ⟨62⟩

-- Unknown
def UNKNOWN_ERROR : ErrorCode := ⟨999⟩

/-- The enumerator list of `enum class ErrorCode` in declaration order: the
identifier each enumerator is declared under, and the constant it declares. -/
def enumerators : List (String × ErrorCode) :=
  [ ("OK", OK),
    ("FILE_NOT_FOUND", FILE_NOT_FOUND),
    ("FILE_CANT_OPEN", FILE_CANT_OPEN),
    ("FILE_CANT_READ", FILE_CANT_READ),
    ("FILE_CANT_WRITE", FILE_CANT_WRITE),
    ("FILE_CORRUPT", FILE_CORRUPT),
    ("FILE_EOF", FILE_EOF),
    ("PARSE_ERROR", PARSE_ERROR),
    ("INVALID_FORMAT", INVALID_FORMAT),
    ("INVALID_DATA", INVALID_DATA),
    ("RESOURCE_NOT_FOUND", RESOURCE_NOT_FOUND),
    ("RESOURCE_LOAD_FAILED", RESOURCE_LOAD_FAILED),
    ("RESOURCE_SAVE_FAILED", RESOURCE_SAVE_FAILED),
    ("RESOURCE_TIMEOUT", RESOURCE_TIMEOUT),
    ("RESOURCE_BUSY", RESOURCE_BUSY),
    ("OUT_OF_MEMORY", OUT_OF_MEMORY),
    ("MEMORY_LEAK", MEMORY_LEAK),
    ("NETWORK_TIMEOUT", NETWORK_TIMEOUT),
    ("NETWORK_CONNECTION_FAILED", NETWORK_CONNECTION_FAILED),
    ("NETWORK_REQUEST_FAILED", NETWORK_REQUEST_FAILED),
    ("INVALID_PARAMETER", INVALID_PARAMETER),
    ("OUT_OF_RANGE", OUT_OF_RANGE),
    ("NULL_POINTER", NULL_POINTER),
    ("UNAVAILABLE", UNAVAILABLE),
    ("UNAUTHORIZED", UNAUTHORIZED),
    ("PERMISSION_DENIED", PERMISSION_DENIED),
    ("UNKNOWN_ERROR", UNKNOWN_ERROR) ]

/-- The values that some enumerator declares. -/
def enumerated : List ErrorCode :=
  enumerators.map Prod.snd

end ErrorCode

/-- The `switch` of `error_code_to_string`: the case labels are compared with
`p_code` one after the other, every case returns, and `default` takes what is
left. -/
def error_code_to_string (p_code : ErrorCode) : String :=
  if p_code = ErrorCode.OK then "OK"
  else if p_code = ErrorCode.FILE_NOT_FOUND then "FILE_NOT_FOUND"
  else if p_code = ErrorCode.FILE_CANT_OPEN then "FILE_CANT_OPEN"
  else if p_code = ErrorCode.FILE_CANT_READ then "FILE_CANT_READ"
  else if p_code = ErrorCode.FILE_CANT_WRITE then "FILE_CANT_WRITE"
  else if p_code = ErrorCode.FILE_CORRUPT then "FILE_CORRUPT"
  else if p_code = ErrorCode.FILE_EOF then "FILE_EOF"
  else if p_code = ErrorCode.PARSE_ERROR then "PARSE_ERROR"
  else if p_code = ErrorCode.INVALID_FORMAT then "INVALID_FORMAT"
  else if p_code = ErrorCode.INVALID_DATA then "INVALID_DATA"
  else if p_code = ErrorCode.RESOURCE_NOT_FOUND then "RESOURCE_NOT_FOUND"
  else if p_code = ErrorCode.RESOURCE_LOAD_FAILED then "RESOURCE_LOAD_FAILED"
  else if p_code = ErrorCode.RESOURCE_SAVE_FAILED then "RESOURCE_SAVE_FAILED"
  else if p_code = ErrorCode.RESOURCE_TIMEOUT then "RESOURCE_TIMEOUT"
  else if p_code = ErrorCode.RESOURCE_BUSY then "RESOURCE_BUSY"
  else if p_code = ErrorCode.OUT_OF_MEMORY then "OUT_OF_MEMORY"
  else if p_code = ErrorCode.MEMORY_LEAK then "MEMORY_LEAK"
  else if p_code = ErrorCode.NETWORK_TIMEOUT then "NETWORK_TIMEOUT"
  else if p_code = ErrorCode.NETWORK_CONNECTION_FAILED then "NETWORK_CONNECTION_FAILED"
  else if p_code = ErrorCode.NETWORK_REQUEST_FAILED then "NETWORK_REQUEST_FAILED"
  else if p_code = ErrorCode.INVALID_PARAMETER then "INVALID_PARAMETER"
  else if p_code = ErrorCode.OUT_OF_RANGE then "OUT_OF_RANGE"
  else if p_code = ErrorCode.NULL_POINTER then "NULL_POINTER"
  else if p_code = ErrorCode.UNAVAILABLE then "UNAVAILABLE"
  else if p_code = ErrorCode.UNAUTHORIZED then "UNAUTHORIZED"
  else if p_code = ErrorCode.PERMISSION_DENIED then "PERMISSION_DENIED"
  else if p_code = ErrorCode.UNKNOWN_ERROR then "UNKNOWN_ERROR"
  else "UNKNOWN"

/-- Section 3 of the specification, row by row: each variant's name with the
discriminant the specification fixes for it. -/
def spec_discriminants : List (String × Int) :=
  [ ("OK", 0),
    ("FILE_NOT_FOUND", 1), ("FILE_CANT_OPEN", 2), ("FILE_CANT_READ", 3),
    ("FILE_CANT_WRITE", 4), ("FILE_CORRUPT", 5), ("FILE_EOF", 6),
    ("PARSE_ERROR", 10), ("INVALID_FORMAT", 11), ("INVALID_DATA", 12),
    ("RESOURCE_NOT_FOUND", 20), ("RESOURCE_LOAD_FAILED", 21),
    ("RESOURCE_SAVE_FAILED", 22), ("RESOURCE_TIMEOUT", 23), ("RESOURCE_BUSY", 24),
    ("OUT_OF_MEMORY", 30), ("MEMORY_LEAK", 31),
    ("NETWORK_TIMEOUT", 40), ("NETWORK_CONNECTION_FAILED", 41),
    ("NETWORK_REQUEST_FAILED", 42),
    ("INVALID_PARAMETER", 50), ("OUT_OF_RANGE", 51), ("NULL_POINTER", 52),
    ("UNAVAILABLE", 60), ("UNAUTHORIZED", 61), ("PERMISSION_DENIED", 62),
    ("UNKNOWN_ERROR", 999) ]

/-- Canonical identifier form: every character is one of the letters `A` to
`Z` or the underscore, and neither the first nor the last one is an underscore. -/
def isCanonicalIdentifier (s : String) : Prop :=
  (∀ ch ∈ s.data, ('A' ≤ ch ∧ ch ≤ 'Z') ∨ ch = '_') ∧
  s.data.head? ≠ some '_' ∧ s.data.getLast? ≠ some '_'

instance : DecidablePred isCanonicalIdentifier := fun s => by
  unfold isCanonicalIdentifier
  infer_instance

/-- The strings `error_code_to_string` returns: the results of its 27 cases
in source order, then the literal of its `default` branch. -/
def returned_labels : List String :=
  ErrorCode.enumerated.map error_code_to_string ++ ["UNKNOWN"]

/-! ## Shared lemmas -/

/-- A value that no enumerator declares matches no case label and is left to
the default branch. -/
theorem label_eq_unknown_of_not_mem_enumerated (c : ErrorCode)
    (h : c ∉ ErrorCode.enumerated) : error_code_to_string c = "UNKNOWN" := by
  simp only [ErrorCode.enumerated, ErrorCode.enumerators, List.map_cons, List.map_nil,
    List.mem_cons, List.mem_singleton, not_or] at h
  obtain ⟨h0, h1, h2, h3, h4, h5, h6, h7, h8, h9, h10, h11, h12, h13, h14, h15, h16,
    h17, h18, h19, h20, h21, h22, h23, h24, h25, h26, -⟩ := h
  unfold error_code_to_string
  rw [if_neg h0, if_neg h1, if_neg h2, if_neg h3, if_neg h4, if_neg h5, if_neg h6,
    if_neg h7, if_neg h8, if_neg h9, if_neg h10, if_neg h11, if_neg h12, if_neg h13,
    if_neg h14, if_neg h15, if_neg h16, if_neg h17, if_neg h18, if_neg h19, if_neg h20,
    if_neg h21, if_neg h22, if_neg h23, if_neg h24, if_neg h25, if_neg h26]

/-- A label other than the fallback is only returned by a case of the switch,
and every case label is an enumerator. -/
theorem mem_enumerated_of_label_ne_unknown (c : ErrorCode)
    (h : error_code_to_string c ≠ "UNKNOWN") : c ∈ ErrorCode.enumerated := by
  by_contra hc
  exact h (label_eq_unknown_of_not_mem_enumerated c hc)

/-- No enumerator falls through to the default branch. -/
theorem label_ne_unknown_of_mem_enumerated :
    ∀ c ∈ ErrorCode.enumerated, error_code_to_string c ≠ "UNKNOWN" := by
  decide

/-- On the enumerated values the switch returns pairwise different labels. -/
theorem label_injOn_enumerated :
    ∀ a ∈ ErrorCode.enumerated, ∀ b ∈ ErrorCode.enumerated,
      error_code_to_string a = error_code_to_string b → a = b := by
  decide

/-- A value is enumerated exactly when its integer is some enumerator's. -/
theorem mem_enumerated_iff (c : ErrorCode) :
    c ∈ ErrorCode.enumerated ↔ ∃ p ∈ ErrorCode.enumerators, p.2.val = c.val := by
  constructor
  · intro h
    obtain ⟨p, hp, rfl⟩ := List.mem_map.1 h
    exact ⟨p, hp, rfl⟩
  · rintro ⟨p, hp, hv⟩
    have hc : p.2 = c := by
      cases c
      cases hq : p.2
      rw [hq] at hv
      simp only at hv
      rw [hv]
    exact hc ▸ List.mem_map.2 ⟨p, hp, rfl⟩

/-! ## The claims -/

/-- C1: the enumeration declares 27 enumerators, and for each of them
`error_code_to_string` returns exactly the identifier it is declared under. -/
theorem error_code_to_string_exact_name :
    ErrorCode.enumerators.length = 27 ∧
    ∀ p ∈ ErrorCode.enumerators, error_code_to_string p.2 = p.1 := by
  decide

theorem error_code_to_string_exact_name_witness :
    ("FILE_CANT_OPEN", ErrorCode.FILE_CANT_OPEN) ∈ ErrorCode.enumerators ∧
    error_code_to_string ErrorCode.FILE_CANT_OPEN = "FILE_CANT_OPEN" :=
  ⟨by decide,
   error_code_to_string_exact_name.2 ("FILE_CANT_OPEN", ErrorCode.FILE_CANT_OPEN) (by decide)⟩

/-- C2: read as name and integer, the enumerator list of the header is the
table of section 3 of the specification, row by row. -/
theorem discriminants_match_spec :
    ErrorCode.enumerators.map (fun p => (p.1, p.2.val)) = spec_discriminants := by
  decide

/-- C3: an integer that no enumerator declares, cast to `ErrorCode`, is mapped
to the fallback label; so are 7, 13, 25, 63, 998, 1000 and every negative
integer, none of which is declared. -/
theorem error_code_to_string_fallback :
    (∀ n : Int, (∀ p ∈ ErrorCode.enumerators, p.2.val ≠ n) →
      error_code_to_string ⟨n⟩ = "UNKNOWN") ∧
    (∀ n ∈ ([7, 13, 25, 63, 998, 1000] : List Int),
      (∀ p ∈ ErrorCode.enumerators, p.2.val ≠ n) ∧
      error_code_to_string ⟨n⟩ = "UNKNOWN") ∧
    (∀ n : Int, n < 0 →
      (∀ p ∈ ErrorCode.enumerators, p.2.val ≠ n) ∧
      error_code_to_string ⟨n⟩ = "UNKNOWN") := by
  have key : ∀ n : Int, (∀ p ∈ ErrorCode.enumerators, p.2.val ≠ n) →
      error_code_to_string ⟨n⟩ = "UNKNOWN" := by
    intro n hn
    by_contra hne
    obtain ⟨p, hp, hv⟩ :=
      (mem_enumerated_iff ⟨n⟩).1 (mem_enumerated_of_label_ne_unknown ⟨n⟩ hne)
    exact hn p hp hv
  have nonneg : ∀ p ∈ ErrorCode.enumerators, 0 ≤ p.2.val := by decide
  refine ⟨key, ?_, ?_⟩
  · decide
  · intro n hn
    have hfree : ∀ p ∈ ErrorCode.enumerators, p.2.val ≠ n := by
      intro p hp hv
      have := nonneg p hp
      omega
    exact ⟨hfree, key n hfree⟩

theorem error_code_to_string_fallback_witness :
    (∀ p ∈ ErrorCode.enumerators, p.2.val ≠ 7) ∧
    error_code_to_string ⟨7⟩ = "UNKNOWN" :=
  ⟨by decide, error_code_to_string_fallback.1 7 (by decide)⟩

/-- C4: no enumerator is given the fallback label; `UNKNOWN_ERROR` is given
"UNKNOWN_ERROR", and a value outside the enumeration is given "UNKNOWN", which
differs from the label of `UNKNOWN_ERROR`. -/
theorem fallback_label_distinct :
    (∀ p ∈ ErrorCode.enumerators, error_code_to_string p.2 ≠ "UNKNOWN") ∧
    error_code_to_string ErrorCode.UNKNOWN_ERROR = "UNKNOWN_ERROR" ∧
    (∀ c : ErrorCode, c ∉ ErrorCode.enumerated →
      error_code_to_string c = "UNKNOWN" ∧
      error_code_to_string c ≠ error_code_to_string ErrorCode.UNKNOWN_ERROR) := by
  refine ⟨by decide, by decide, ?_⟩
  intro c hc
  have hu := label_eq_unknown_of_not_mem_enumerated c hc
  refine ⟨hu, ?_⟩
  rw [hu]
  decide

theorem fallback_label_distinct_witness :
    ("UNKNOWN_ERROR", ErrorCode.UNKNOWN_ERROR) ∈ ErrorCode.enumerators ∧
    error_code_to_string ErrorCode.UNKNOWN_ERROR ≠ "UNKNOWN" ∧
    (⟨7⟩ : ErrorCode) ∉ ErrorCode.enumerated ∧
    error_code_to_string ⟨7⟩ = "UNKNOWN" ∧
    error_code_to_string ⟨7⟩ ≠ error_code_to_string ErrorCode.UNKNOWN_ERROR :=
  ⟨by decide,
   fallback_label_distinct.1 ("UNKNOWN_ERROR", ErrorCode.UNKNOWN_ERROR) (by decide),
   by decide,
   fallback_label_distinct.2.2 ⟨7⟩ (by decide)⟩

/-- C5: two enumerated values with the same label are the same value. -/
theorem error_code_to_string_injective_on_enumerated (a b : ErrorCode)
    (ha : a ∈ ErrorCode.enumerated) (hb : b ∈ ErrorCode.enumerated)
    (h : error_code_to_string a = error_code_to_string b) : a = b :=
  label_injOn_enumerated a ha b hb h

theorem error_code_to_string_injective_on_enumerated_witness :
    ErrorCode.FILE_EOF ∈ ErrorCode.enumerated ∧
    (⟨6⟩ : ErrorCode) ∈ ErrorCode.enumerated ∧
    error_code_to_string ErrorCode.FILE_EOF = error_code_to_string ⟨6⟩ ∧
    ErrorCode.FILE_EOF = ⟨6⟩ :=
  ⟨by decide, by decide, by decide,
   error_code_to_string_injective_on_enumerated ErrorCode.FILE_EOF ⟨6⟩
     (by decide) (by decide) (by decide)⟩

/-- C6: for every value of `ErrorCode`, enumerated or not, the function
returns a string, and that string is not empty. -/
theorem error_code_to_string_total (c : ErrorCode) :
    ∃ s : String, error_code_to_string c = s ∧ s ≠ "" ∧ 0 < s.length := by
  refine ⟨error_code_to_string c, rfl, ?_⟩
  by_cases hc : c ∈ ErrorCode.enumerated
  · have all : ∀ d ∈ ErrorCode.enumerated,
        error_code_to_string d ≠ "" ∧ 0 < (error_code_to_string d).length := by decide
    exact all c hc
  · rw [label_eq_unknown_of_not_mem_enumerated c hc]
    decide

/-- C7: two enumerators with the same integer discriminant are the same
enumerator. -/
theorem discriminants_pairwise_distinct (p q : String × ErrorCode)
    (hp : p ∈ ErrorCode.enumerators) (hq : q ∈ ErrorCode.enumerators)
    (h : p.2.val = q.2.val) : p = q := by
  have all : ∀ a ∈ ErrorCode.enumerators, ∀ b ∈ ErrorCode.enumerators,
      a.2.val = b.2.val → a = b := by decide
  exact all p hp q hq h

theorem discriminants_pairwise_distinct_witness :
    ("MEMORY_LEAK", ErrorCode.MEMORY_LEAK) ∈ ErrorCode.enumerators ∧
    ("MEMORY_LEAK", (⟨31⟩ : ErrorCode)) ∈ ErrorCode.enumerators ∧
    ErrorCode.MEMORY_LEAK.val = (⟨31⟩ : ErrorCode).val ∧
    ("MEMORY_LEAK", ErrorCode.MEMORY_LEAK) = ("MEMORY_LEAK", (⟨31⟩ : ErrorCode)) :=
  ⟨by decide, by decide, by decide,
   discriminants_pairwise_distinct ("MEMORY_LEAK", ErrorCode.MEMORY_LEAK)
     ("MEMORY_LEAK", ⟨31⟩) (by decide) (by decide) (by decide)⟩

/-- C9: whatever the argument, the returned string is in canonical identifier
form: letters `A` to `Z` and underscores only, no underscore first or last. -/
theorem error_code_to_string_canonical (c : ErrorCode) :
    isCanonicalIdentifier (error_code_to_string c) := by
  by_cases hc : c ∈ ErrorCode.enumerated
  · have all : ∀ d ∈ ErrorCode.enumerated,
        isCanonicalIdentifier (error_code_to_string d) := by decide
    exact all c hc
  · rw [label_eq_unknown_of_not_mem_enumerated c hc]
    decide

/-- C10: over all integers, two arguments with the same label other than
"UNKNOWN" are the same argument; the integers whose label is not "UNKNOWN"
are exactly the 27 declared discriminants; and the function returns exactly
28 different strings. -/
theorem label_identifies_code :
    (∀ a b : ErrorCode, error_code_to_string a = error_code_to_string b →
      error_code_to_string a ≠ "UNKNOWN" → a = b) ∧
    {n : Int | error_code_to_string ⟨n⟩ ≠ "UNKNOWN"} =
      {0, 1, 2, 3, 4, 5, 6, 10, 11, 12, 20, 21, 22, 23, 24, 30, 31,
       40, 41, 42, 50, 51, 52, 60, 61, 62, 999} ∧
    {n : Int | error_code_to_string ⟨n⟩ ≠ "UNKNOWN"}.ncard = 27 ∧
    (Set.range error_code_to_string).ncard = 28 := by
  have inj : ∀ a b : ErrorCode, error_code_to_string a = error_code_to_string b →
      error_code_to_string a ≠ "UNKNOWN" → a = b := by
    intro a b hab hu
    exact label_injOn_enumerated a (mem_enumerated_of_label_ne_unknown a hu)
      b (mem_enumerated_of_label_ne_unknown b (hab ▸ hu)) hab
  have hset : {n : Int | error_code_to_string ⟨n⟩ ≠ "UNKNOWN"} =
      ((ErrorCode.enumerated.map ErrorCode.val).toFinset : Set Int) := by
    ext n
    simp only [Set.mem_setOf_eq, Finset.mem_coe, List.mem_toFinset, List.mem_map]
    constructor
    · intro h
      exact ⟨⟨n⟩, mem_enumerated_of_label_ne_unknown ⟨n⟩ h, rfl⟩
    · rintro ⟨c, hc, rfl⟩
      exact label_ne_unknown_of_mem_enumerated c hc
  have hrange : Set.range error_code_to_string = (returned_labels.toFinset : Set String) := by
    ext s
    simp only [Set.mem_range, Finset.mem_coe, List.mem_toFinset]
    constructor
    · rintro ⟨c, rfl⟩
      by_cases hc : c ∈ ErrorCode.enumerated
      · have all : ∀ d ∈ ErrorCode.enumerated, error_code_to_string d ∈ returned_labels := by
          decide
        exact all c hc
      · rw [label_eq_unknown_of_not_mem_enumerated c hc]
        decide
    · have all : ∀ t ∈ returned_labels,
          ∃ d ∈ (⟨7⟩ : ErrorCode) :: ErrorCode.enumerated, error_code_to_string d = t := by
        decide
      intro hs
      obtain ⟨d, -, hd⟩ := all s hs
      exact ⟨d, hd⟩
  refine ⟨inj, ?_, ?_, ?_⟩
  · rw [hset]
    ext n
    have vals : ErrorCode.enumerated.map ErrorCode.val =
        [0, 1, 2, 3, 4, 5, 6, 10, 11, 12, 20, 21, 22, 23, 24, 30, 31,
         40, 41, 42, 50, 51, 52, 60, 61, 62, 999] := by decide
    simp only [vals, Finset.mem_coe, List.mem_toFinset, List.mem_cons, List.mem_singleton,
      Set.mem_insert_iff, Set.mem_singleton_iff, List.not_mem_nil, or_false]
  · rw [hset, Set.ncard_coe_Finset]
    decide
  · rw [hrange, Set.ncard_coe_Finset]
    decide

theorem label_identifies_code_witness :
    error_code_to_string ErrorCode.NULL_POINTER = error_code_to_string ⟨52⟩ ∧
    error_code_to_string ErrorCode.NULL_POINTER ≠ "UNKNOWN" ∧
    ErrorCode.NULL_POINTER = ⟨52⟩ :=
  ⟨by decide, by decide,
   label_identifies_code.1 ErrorCode.NULL_POINTER ⟨52⟩ (by decide) (by decide)⟩
